import Mathlib

/-!
# Verification of the pharmacy claim adjudication and DUR engine

Shallow embedding of the rxmembersim pharmacy claim adjudication engine
described by the specification of the healthsim-hello repository.  The
repository ships only example drivers and tests for the engine
(examples/rxmembersim/basic_generation.py, formulary_check.py,
test_examples.py); the engine package itself (rxmembersim.core.member,
rxmembersim.claims.claim, rxmembersim.claims.adjudication,
rxmembersim.formulary.formulary, rxmembersim.dur.validator) is not part of
the source tree, so every engine definition below is modelled from the
specification text (sections 3, 4, 6 of the spec), faithful to its words,
as signalled by each doc comment.

Monetary amounts are modelled in integer cents (the smallest currency
unit), so Decimal dollar amounts such as 10.00 appear as 1000.
-/

/-- Modelled from the spec: transaction codes of section 6, the stable coded
vocabulary B1 = billing, B2 = reversal, B3 = rebill (the missing
rxmembersim.claims.claim.TransactionCode). -/
inductive TransactionCode where
  | billing
  | reversal
  | rebill
deriving DecidableEq, Repr

/-- Modelled from the spec: member gender demographic, used by the
drug-gender DUR rule. -/
inductive Gender where
  | male
  | female
deriving DecidableEq, Repr

/-- Modelled from the spec: the Member data model of section 3 (the missing
rxmembersim.core.member.RxMember): identity, routing triple, demographics
and the two accumulator pairs, each a non-negative monetary amount in
cents. -/
structure Member where
  member_id : String
  cardholder_id : String
  person_code : String
  bin : String
  pcn : String
  group_number : String
  first_name : String
  last_name : String
  date_of_birth : Nat
  gender : Gender
  deductible_met : Nat
  deductible_limit : Nat
  oop_met : Nat
  oop_limit : Nat
deriving DecidableEq, Repr

/-- Modelled from the spec: the PharmacyClaim data model of section 3 (the
missing rxmembersim.claims.claim.PharmacyClaim), an immutable value for one
dispensing event.  The prior_auth field carries the authorization that the
UM check of section 4.4 inspects; step_therapy_satisfied is the
caller-supplied evidence that step-therapy prerequisites were met, which the
spec references in that same check without naming its carrier. -/
structure PharmacyClaim where
  claim_id : String
  transaction_code : TransactionCode
  service_date : Nat
  pharmacy_npi : String
  prescriber_npi : String
  prescription_number : String
  fill_number : Nat
  ndc : String
  gpi : Option String
  quantity_dispensed : Nat
  days_supply : Nat
  daw_code : Nat
  ingredient_cost_submitted : Nat
  dispensing_fee_submitted : Nat
  patient_paid_submitted : Nat
  usual_customary_charge : Nat
  gross_amount_due : Nat
  prior_auth : Option String
  step_therapy_satisfied : Bool
deriving DecidableEq, Repr

/-- Modelled from the spec: the cost-share rule of a formulary entry, flat
copay or percentage coinsurance, mutually exclusive (section 3 and the
design note of section 9 asking for a tagged variant). -/
inductive CostShare where
  | copay (amount : Nat)
  | coinsurance (rate : Nat)
deriving DecidableEq, Repr

/-- Modelled from the spec: the FormularyEntry data model of section 3:
coverage boolean, tier 1 to 5, cost-share rule, UM flags, plus the
formulary-negotiated rate that the pricing step of section 4.4 names as a
configuration input, and the deductible-eligibility flag that the same step
consults. -/
structure FormularyEntry where
  covered : Bool
  tier : Nat
  cost_share : CostShare
  requires_pa : Bool
  step_therapy : Bool
  quantity_limit : Option Nat
  deductible_eligible : Bool
  negotiated_rate : Nat
deriving DecidableEq, Repr

/-- Modelled from the spec: a Formulary instance (the missing
rxmembersim.formulary.formulary), a static table keyed by drug identifier,
built once and immutable thereafter (section 9 design note). -/
structure Formulary where
  entries : List (String × FormularyEntry)
deriving DecidableEq, Repr

/-- Modelled from the spec: the coverage result as the tagged variant that
the design note of section 9 prescribes: Covered with the entry, or
NotCovered with a human-readable message. -/
inductive CoverageStatus where
  | covered (entry : FormularyEntry)
  | notCovered (message : String)
deriving DecidableEq, Repr

/-- Modelled from the spec: the Formulary Resolver contract of section 4.1,
check_coverage(drug_id) -> CoverageStatus: a pure, total lookup whose
defined default for unknown identifiers is not-covered; a listed entry whose
coverage boolean is false is likewise not covered. -/
def check_coverage (f : Formulary) (drug_id : String) : CoverageStatus :=
  match f.entries.find? (fun p => p.1 == drug_id) with
  | some p =>
      if p.2.covered then CoverageStatus.covered p.2
      else CoverageStatus.notCovered "Product/Service Not Covered"
  | none => CoverageStatus.notCovered "Product/Service Not Covered"

/-- Modelled from the spec: a DURAlert of section 3: alert-type tag (one of
DD, TD, ER, HD, DA, DG), severity 1 to 3, message, optional reference to the
conflicting prior medication (from the missing rxmembersim.dur package). -/
structure DURAlert where
  alert_type : String
  severity : Nat
  message : String
  conflicting_drug : Option String
deriving DecidableEq, Repr

/-- Modelled from the spec: a current medication of the member, as the
caller supplies it to the DUR Rule Engine in the validate_simple example
(ndc, gpi, name dictionaries). -/
structure Medication where
  ndc : String
  gpi : String
  name : String
deriving DecidableEq, Repr

/-- Modelled from the spec: one row of the static interaction table of
section 4.3, mapping a pair of interaction classes to an alert severity
(contraindicated pairs have severity 1). -/
structure InteractionRule where
  class_a : String
  class_b : String
  severity : Nat
deriving DecidableEq, Repr

/-- Modelled from the spec: one row of the age-inappropriate-use table of
section 4.3: a drug class flagged from a minimum age upward. -/
structure AgeRule where
  drug_class : String
  min_age : Nat
deriving DecidableEq, Repr

/-- Modelled from the spec: one row of the gender-contraindication table of
section 4.3: a drug class contraindicated for one gender. -/
structure GenderRule where
  drug_class : String
  gender : Gender
deriving DecidableEq, Repr

/-- Modelled from the spec: one row of the per-drug maximum daily dose table
of section 4.3, in dispensed units per day of supply. -/
structure DoseRule where
  drug_class : String
  max_daily_units : Nat
deriving DecidableEq, Repr

/-- Modelled from the spec: the interaction, duplication, age-gender, dose
and early-refill rule tables of section 4.3, loaded once at rule-table
construction and immutable thereafter (section 9 design note). -/
structure DURRules where
  interactions : List InteractionRule
  age_rules : List AgeRule
  gender_rules : List GenderRule
  dose_rules : List DoseRule
  early_refill_threshold : Nat
deriving DecidableEq, Repr

/-- Modelled from the spec: the caller-supplied member context for DUR
screening (current medication list, patient age, and the
days-supply-remaining figure from fill history that the early-refill rule
needs). -/
structure DURContext where
  current_medications : List Medication
  patient_age : Nat
  days_supply_remaining : Nat
deriving DecidableEq, Repr

/-- Modelled from the spec: the DURResult of section 4.3, a passed flag and
the collected severity-ranked alerts. -/
structure DURResult where
  passed : Bool
  alerts : List DURAlert
deriving DecidableEq, Repr

/-- Modelled from the spec: the interaction class of a drug, the leading
segment of its hierarchical GPI classification code (glossary: GPI is used
for interaction matching). -/
def interactionClass (gpi : String) : String := gpi.take 4

/-- Modelled from the spec: the therapeutic class of a drug, a finer leading
segment of its GPI, used for duplication matching (two statins share it). -/
def therapeuticClass (gpi : String) : String := gpi.take 6

/-- Modelled from the spec: the drug-drug interaction rule of section 4.3:
the candidate class is cross-referenced against each current medication
class via the static interaction table; any match emits one alert per
conflicting medication, severity per the table. -/
def ddAlerts (rules : DURRules) (gpi : String) (meds : List Medication) :
    List DURAlert :=
  meds.filterMap fun med =>
    match rules.interactions.find? (fun r =>
        (r.class_a == interactionClass gpi &&
         r.class_b == interactionClass med.gpi) ||
        (r.class_b == interactionClass gpi &&
         r.class_a == interactionClass med.gpi)) with
    | some r =>
        some { alert_type := "DD", severity := r.severity,
               message := "Drug-drug interaction with " ++ med.name,
               conflicting_drug := some med.name }
    | none => none

/-- Modelled from the spec: the therapeutic duplication rule of section 4.3:
a candidate whose therapeutic class matches a current medication class
yields a severity 3 alert, one per duplicate found. -/
def tdAlerts (gpi : String) (meds : List Medication) : List DURAlert :=
  meds.filterMap fun med =>
    if therapeuticClass med.gpi == therapeuticClass gpi then
      some { alert_type := "TD", severity := 3,
             message := "Therapeutic duplication with " ++ med.name,
             conflicting_drug := some med.name }
    else none

/-- Modelled from the spec: the drug-age rule of section 4.3: a candidate
flagged in the age-inappropriate-use table whose patient age falls in the
flagged range yields a severity 2 alert. -/
def daAlerts (rules : DURRules) (gpi : String) (age : Nat) : List DURAlert :=
  rules.age_rules.filterMap fun r =>
    if r.drug_class == interactionClass gpi && decide (r.min_age ≤ age) then
      some { alert_type := "DA", severity := 2,
             message := "Use caution in this age group",
             conflicting_drug := none }
    else none

/-- Modelled from the spec: the drug-gender rule of section 4.3: a candidate
flagged contraindicated for a gender with a matching patient gender yields a
severity 2 alert. -/
def dgAlerts (rules : DURRules) (gpi : String) (g : Gender) : List DURAlert :=
  rules.gender_rules.filterMap fun r =>
    if r.drug_class == interactionClass gpi && r.gender == g then
      some { alert_type := "DG", severity := 2,
             message := "Drug contraindicated for patient gender",
             conflicting_drug := none }
    else none

/-- Modelled from the spec: the early-refill rule of section 4.3:
days-supply-remaining from the last fill above the configured threshold
yields a severity 3 alert. -/
def erAlerts (rules : DURRules) (days_remaining : Nat) : List DURAlert :=
  if rules.early_refill_threshold < days_remaining then
    [{ alert_type := "ER", severity := 3,
       message := "Refill too soon", conflicting_drug := none }]
  else []

/-- Modelled from the spec: the high-dose rule of section 4.3: a submitted
quantity over days supply implying a daily dose above the per-drug maximum
yields a severity 2 alert. -/
def hdAlerts (rules : DURRules) (gpi : String) (quantity days_supply : Nat) :
    List DURAlert :=
  rules.dose_rules.filterMap fun r =>
    if r.drug_class == interactionClass gpi && decide (0 < days_supply) &&
        decide (r.max_daily_units < quantity / days_supply) then
      some { alert_type := "HD", severity := 2,
             message := "Dose exceeds per-drug maximum",
             conflicting_drug := none }
    else none

/-- Modelled from the spec: the ordering of section 4.3: all alerts are
returned, ordered by descending severity (level 1 first) then by rule
evaluation order within a level. -/
def orderAlerts (all : List DURAlert) : List DURAlert :=
  all.filter (fun a => a.severity == 1) ++
  all.filter (fun a => a.severity == 2) ++
  all.filter (fun a => a.severity != 1 && a.severity != 2)

/-- Modelled from the spec: the DUR Rule Engine contract of section 4.3 (the
missing rxmembersim.dur.validator.DURValidator.validate_simple): rules
evaluated independently, all alerts collected, then
passed = (no alert has severity 1). -/
def screen (rules : DURRules) (gpi : String) (ctx : DURContext)
    (gender : Gender) (quantity days_supply : Nat) : DURResult :=
  let all :=
    ddAlerts rules gpi ctx.current_medications ++
    tdAlerts gpi ctx.current_medications ++
    daAlerts rules gpi ctx.patient_age ++
    dgAlerts rules gpi gender ++
    erAlerts rules ctx.days_supply_remaining ++
    hdAlerts rules gpi quantity days_supply
  { passed := !(all.any (fun a => a.severity == 1)),
    alerts := orderAlerts all }

/-- Modelled from the spec: the AdjudicationResponse of section 3 as a
tagged variant (section 9 design note): exactly one of paid, rejected or
duplicate holds, with the payment fields (authorization number, plan paid,
patient pay, cost-share breakdown, attached advisory alerts) present only on
payment and the reject code and message only on rejection. -/
inductive AdjudicationResponse where
  | paid (authorization_number : String) (plan_paid patient_pay copay : Nat)
      (alerts : List DURAlert)
  | rejected (reject_code : Nat) (reject_message : String)
  | duplicate
deriving DecidableEq, Repr

/-- Modelled from the spec: the per-claim application record that section
4.2 requires the Benefit Accumulator Ledger to retain, keyed by claim id,
holding the amounts actually applied to each accumulator until reversed. -/
structure LedgerRecord where
  claim_id : String
  ded_applied : Nat
  oop_applied : Nat
deriving DecidableEq, Repr

/-- Modelled from the spec: the mutable state an AdjudicationEngine works
over: the member whose accumulators the finalize step updates, the set of
claim ids previously finalized as paid (for duplicate detection), and the
per-claim ledger records of section 4.2. -/
structure EngineState where
  member : Member
  paid_claims : List String
  ledger : List LedgerRecord
deriving DecidableEq, Repr

/-- Modelled from the spec: the engine configuration of section 6: a
Formulary instance and the DUR rule tables, built once and passed in. -/
structure EngineConfig where
  formulary : Formulary
  rules : DURRules
deriving DecidableEq, Repr

/-- Modelled from the spec: the allowed amount of pricing step 4 of section
4.4: the lesser of the submitted ingredient-plus-dispensing cost and the
formulary-negotiated rate. -/
def allowedAmount (entry : FormularyEntry) (claim : PharmacyClaim) : Nat :=
  min (claim.ingredient_cost_submitted + claim.dispensing_fee_submitted)
    entry.negotiated_rate

/-- Modelled from the spec: the deductible portion of pricing step 4: when
the member still has deductible room and the formulary entry is
deductible-eligible, the patient first pays into the deductible
(deductible-then-copay ordering). -/
def dedPortion (entry : FormularyEntry) (m : Member) (allowed : Nat) : Nat :=
  if entry.deductible_eligible then
    min allowed (m.deductible_limit - m.deductible_met)
  else 0

/-- Modelled from the spec: the cost-share rule application of pricing step
4: flat copay means the patient pays min(copay, amount); coinsurance means
the patient pays amount times the rate (percentage, rounded down to the
smallest currency unit, the explicit rounding mode section 9 asks an
implementer to fix). -/
def costSharePart (cs : CostShare) (amount : Nat) : Nat :=
  match cs with
  | CostShare.copay c => min c amount
  | CostShare.coinsurance r => amount * r / 100

/-- Modelled from the spec: the raw patient responsibility of pricing step
4: the deductible portion first, then the cost-share rule applied to the
remainder of the allowed amount. -/
def patientResponsibility (entry : FormularyEntry) (m : Member)
    (allowed : Nat) : Nat :=
  let d := dedPortion entry m allowed
  d + costSharePart entry.cost_share (allowed - d)

/-- Modelled from the spec: the final patient pay: patient_pay never exceeds
the remaining out-of-pocket room (section 3 invariant), so once
oop_met equals oop_limit the patient responsibility is zero (section 4.2). -/
def patientPay (entry : FormularyEntry) (m : Member) (allowed : Nat) : Nat :=
  min (patientResponsibility entry m allowed) (m.oop_limit - m.oop_met)

/-- Modelled from the spec: the outcome of the utilization-management check
of step 2 of section 4.4: pass, or a reject code with message. -/
inductive UMResult where
  | pass
  | reject (code : Nat) (message : String)
deriving DecidableEq, Repr

/-- Modelled from the spec: the UM check of step 2 of section 4.4, in the
fixed order prior authorization, step therapy, quantity limit, halting on
the first failing check: requires-PA with no authorization on the claim
rejects with 75 (prior authorization required); step therapy unmet rejects
in the same family (75); quantity above the formulary limit rejects with 76
(plan limitations exceeded). -/
def umCheck (entry : FormularyEntry) (claim : PharmacyClaim) : UMResult :=
  if entry.requires_pa && claim.prior_auth.isNone then
    UMResult.reject 75 "Prior Authorization Required"
  else if entry.step_therapy && !claim.step_therapy_satisfied then
    UMResult.reject 75 "Step Therapy Required"
  else
    match entry.quantity_limit with
    | some q =>
        if q < claim.quantity_dispensed then
          UMResult.reject 76 "Plan Limitations Exceeded"
        else UMResult.pass
    | none => UMResult.pass

/-- Modelled from the spec: the generated authorization number the finalize
step assigns (deterministic from the claim for reproducibility). -/
def authNumberFor (claim : PharmacyClaim) : String :=
  "AUTH" ++ claim.claim_id

/-- Modelled from the spec: the Adjudication Engine contract of section 4.4
(the missing rxmembersim.claims.adjudication.AdjudicationEngine.adjudicate),
transforming one submitted claim into one response over the engine state:
duplicate detection before step 1 (same claim id previously finalized as
paid, resubmitted as billing rather than rebill); coverage check (not
covered rejects with 70); UM check; DUR check (a failed screen rejects with
88, lower-severity alerts are attached to the paid response); pricing; and
finalize, which applies the patient responsibility to the accumulators
(capped at each limit per section 4.2), records the per-claim application,
and pays.  The DUR member context is supplied by the caller per section
4.3.  Reversal (B2) claims are handled by the ledger reversal operation,
not by this billing path. -/
def adjudicate (cfg : EngineConfig) (st : EngineState)
    (claim : PharmacyClaim) (ctx : DURContext) :
    AdjudicationResponse × EngineState :=
  if claim.transaction_code = TransactionCode.billing ∧
      claim.claim_id ∈ st.paid_claims then
    (AdjudicationResponse.duplicate, st)
  else
    match check_coverage cfg.formulary claim.ndc with
    | CoverageStatus.notCovered msg =>
        (AdjudicationResponse.rejected 70 msg, st)
    | CoverageStatus.covered entry =>
        match umCheck entry claim with
        | UMResult.reject code msg =>
            (AdjudicationResponse.rejected code msg, st)
        | UMResult.pass =>
            if (screen cfg.rules (claim.gpi.getD "") ctx st.member.gender
                  claim.quantity_dispensed claim.days_supply).passed then
              (AdjudicationResponse.paid (authNumberFor claim)
                 (allowedAmount entry claim -
                   patientPay entry st.member (allowedAmount entry claim))
                 (patientPay entry st.member (allowedAmount entry claim))
                 (costSharePart entry.cost_share
                   (allowedAmount entry claim -
                     dedPortion entry st.member (allowedAmount entry claim)))
                 (screen cfg.rules (claim.gpi.getD "") ctx st.member.gender
                   claim.quantity_dispensed claim.days_supply).alerts,
               { member := { st.member with
                   deductible_met := st.member.deductible_met +
                     min (dedPortion entry st.member
                            (allowedAmount entry claim))
                       (patientPay entry st.member
                         (allowedAmount entry claim)),
                   oop_met := st.member.oop_met +
                     patientPay entry st.member (allowedAmount entry claim) },
                 paid_claims := claim.claim_id :: st.paid_claims,
                 ledger := { claim_id := claim.claim_id,
                             ded_applied :=
                               min (dedPortion entry st.member
                                      (allowedAmount entry claim))
                                 (patientPay entry st.member
                                   (allowedAmount entry claim)),
                             oop_applied :=
                               patientPay entry st.member
                                 (allowedAmount entry claim) } ::
                   st.ledger })
            else
              (AdjudicationResponse.rejected 88 "DUR Reject", st)

/-- Modelled from the spec: the ledger reversal of sections 4.2 and 5: a
reversal subtracts the previously applied amounts recorded for the
referenced claim id and discharges the record (and the paid-claim mark, so
an identical claim may be resubmitted); a reversal for a claim id the ledger
has no record of is refused (none). -/
def reverseClaim (st : EngineState) (cid : String) : Option EngineState :=
  match st.ledger.find? (fun r => r.claim_id == cid) with
  | none => none
  | some r =>
      some { member := { st.member with
               deductible_met := st.member.deductible_met - r.ded_applied,
               oop_met := st.member.oop_met - r.oop_applied },
             paid_claims := st.paid_claims.filter (fun c => c != cid),
             ledger := st.ledger.filter (fun q => q.claim_id != cid) }

/-- Modelled from the spec: adjudicating a sequence of claims in order, each
against the state the previous one left (the caller-serialized discipline of
section 5), with one shared DUR context. -/
def adjudicateAll (cfg : EngineConfig) (ctx : DURContext)
    (st : EngineState) (claims : List PharmacyClaim) : EngineState :=
  claims.foldl (fun s c => (adjudicate cfg s c ctx).2) st

/-- Modelled from the spec: one step of the seeded pseudo-random stream
behind the missing rxmembersim.core.member.RxMemberGenerator (a linear
congruential generator; the examples only require that the stream be a
deterministic function of the seed). -/
def lcgNext (s : Nat) : Nat := (s * 1103515245 + 12345) % 2147483648

/-- Modelled from the spec: the missing
rxmembersim.core.member.RxMemberGenerator, created with a seed for
reproducibility; its whole state is the current position of the seeded
stream. -/
structure RxMemberGenerator where
  state : Nat
deriving DecidableEq, Repr

/-- Modelled from the spec: constructing a generator from a seed, as
RxMemberGenerator(seed=42) does in the examples. -/
def RxMemberGenerator.ofSeed (seed : Nat) : RxMemberGenerator :=
  { state := lcgNext seed }

/-- Modelled from the spec: the first-name pool the generator draws from. -/
def firstNamePool : List String :=
  ["Alice", "Brian", "Carla", "David", "Elena", "Frank", "Grace", "Henry"]

/-- Modelled from the spec: the last-name pool the generator draws from. -/
def lastNamePool : List String :=
  ["Anderson", "Brooks", "Chen", "Davis", "Evans", "Foster", "Garcia",
   "Hughes"]

/-- Modelled from the spec: generating one pharmacy member
(RxMemberGenerator.generate with bin, pcn and group_number arguments):
identity and demographics are drawn from the seeded stream, the routing
triple is taken from the arguments, and the accumulator pairs start at the
standard commercial limits with nothing met, satisfying the met-below-limit
invariant of section 3. -/
def RxMemberGenerator.generate (g : RxMemberGenerator)
    (bin pcn group_number : String) : Member × RxMemberGenerator :=
  let s1 := lcgNext g.state
  let s2 := lcgNext s1
  let s3 := lcgNext s2
  let s4 := lcgNext s3
  let s5 := lcgNext s4
  ({ member_id := "RXM" ++ toString (s1 % 1000000000),
     cardholder_id := "CH" ++ toString (s2 % 1000000000),
     person_code := "01",
     bin := bin, pcn := pcn, group_number := group_number,
     first_name := firstNamePool.getD (s3 % firstNamePool.length) "Alex",
     last_name := lastNamePool.getD (s4 % lastNamePool.length) "Smith",
     date_of_birth := 19500101 + s5 % 500000,
     gender := if s3 % 2 == 0 then Gender.female else Gender.male,
     deductible_met := 0, deductible_limit := 50000,
     oop_met := 0, oop_limit := 500000 },
   { state := s5 })

/-- The well-formedness a coinsurance rate must satisfy for pricing to be
meaningful: a percentage of at most 100.  The spec fixes coinsurance rates
such as 25 percent for tier 5. -/
def WFEntry (e : FormularyEntry) : Prop :=
  match e.cost_share with
  | CostShare.coinsurance r => r ≤ 100
  | CostShare.copay _ => True

/-- A formulary is well-formed when every entry has a meaningful
coinsurance rate. -/
def WFFormulary (f : Formulary) : Prop :=
  ∀ p ∈ f.entries, WFEntry p.2

/-- The accumulator invariant of section 3: met never exceeds limit (both
are Nat, so non-negativity is inherent). -/
def AccInv (m : Member) : Prop :=
  m.deductible_met ≤ m.deductible_limit ∧ m.oop_met ≤ m.oop_limit

instance (e : FormularyEntry) : Decidable (WFEntry e) := by
  unfold WFEntry
  exact match e.cost_share with
    | CostShare.coinsurance r => inferInstanceAs (Decidable (r ≤ 100))
    | CostShare.copay _ => inferInstanceAs (Decidable True)

instance (m : Member) : Decidable (AccInv m) :=
  inferInstanceAs (Decidable (_ ∧ _))

instance (f : Formulary) : Decidable (WFFormulary f) :=
  inferInstanceAs (Decidable (∀ p ∈ f.entries, WFEntry p.2))

/-- Concrete standard-commercial formulary fixture, following the drug,
tier, cost-share, PA and limit facts printed by the example scripts
(amounts in cents: tier 1 copay 1000 = ten dollars, tier 5 coinsurance 25
percent). -/
def stdFormulary : Formulary :=
  { entries :=
    [ ("00093017101",
       { covered := true, tier := 1, cost_share := CostShare.copay 1000,
         requires_pa := false, step_therapy := false, quantity_limit := none,
         deductible_eligible := false, negotiated_rate := 1200 }),
      ("00071015523",
       { covered := true, tier := 1, cost_share := CostShare.copay 1000,
         requires_pa := false, step_therapy := false, quantity_limit := none,
         deductible_eligible := false, negotiated_rate := 900 }),
      ("00056017270",
       { covered := true, tier := 2, cost_share := CostShare.copay 2500,
         requires_pa := false, step_therapy := false, quantity_limit := none,
         deductible_eligible := true, negotiated_rate := 2000 }),
      ("00003089421",
       { covered := true, tier := 3, cost_share := CostShare.copay 4000,
         requires_pa := false, step_therapy := false,
         quantity_limit := some 60,
         deductible_eligible := true, negotiated_rate := 45000 }),
      ("00169413512",
       { covered := true, tier := 5, cost_share := CostShare.coinsurance 25,
         requires_pa := true, step_therapy := true,
         quantity_limit := some 4,
         deductible_eligible := true, negotiated_rate := 85000 }),
      ("00074433902",
       { covered := true, tier := 5, cost_share := CostShare.coinsurance 25,
         requires_pa := true, step_therapy := false,
         quantity_limit := some 2,
         deductible_eligible := true, negotiated_rate := 650000 }) ] }

/-- Concrete DUR rule tables fixture, following the scenarios of the
examples: the anticoagulant class 8330 and NSAID class 6610 are a
contraindicated (severity 1) pair; NSAIDs are age-flagged from 65; the
finasteride class 2410 is contraindicated for female patients; NSAIDs have
a 4-unit daily dose cap; refills with more than 7 days of supply remaining
are early. -/
def stdRules : DURRules :=
  { interactions := [{ class_a := "8330", class_b := "6610", severity := 1 }],
    age_rules := [{ drug_class := "6610", min_age := 65 }],
    gender_rules := [{ drug_class := "2410", gender := Gender.female }],
    dose_rules := [{ drug_class := "6610", max_daily_units := 4 }],
    early_refill_threshold := 7 }

/-- Concrete engine configuration fixture. -/
def stdConfig : EngineConfig :=
  { formulary := stdFormulary, rules := stdRules }

/-- Concrete member fixture with full deductible room and ample
out-of-pocket room. -/
def testMember : Member :=
  { member_id := "RXM100000001", cardholder_id := "CH100000001",
    person_code := "01", bin := "610014", pcn := "RXTEST",
    group_number := "GRP001", first_name := "Alice",
    last_name := "Anderson", date_of_birth := 19600315,
    gender := Gender.female,
    deductible_met := 0, deductible_limit := 50000,
    oop_met := 0, oop_limit := 500000 }

/-- Concrete engine state fixture: fresh member, nothing paid yet. -/
def testState : EngineState :=
  { member := testMember, paid_claims := [], ledger := [] }

/-- Concrete DUR context fixture: no current medications, patient aged 55,
no supply remaining from a previous fill. -/
def testCtx : DURContext :=
  { current_medications := [], patient_age := 55,
    days_supply_remaining := 0 }

/-- Concrete metformin billing claim fixture (the example claim CLM001:
eight dollars ingredient cost, two dollars dispensing fee). -/
def metforminClaim : PharmacyClaim :=
  { claim_id := "CLM001", transaction_code := TransactionCode.billing,
    service_date := 20251001, pharmacy_npi := "9876543210",
    prescriber_npi := "1234567890", prescription_number := "RX123456",
    fill_number := 1, ndc := "00093017101", gpi := some "27250050000305",
    quantity_dispensed := 30, days_supply := 30, daw_code := 0,
    ingredient_cost_submitted := 800, dispensing_fee_submitted := 200,
    patient_paid_submitted := 0, usual_customary_charge := 1500,
    gross_amount_due := 1000, prior_auth := none,
    step_therapy_satisfied := true }

/-- Whether a response is the paid variant. -/
def isPaid : AdjudicationResponse → Bool
  | AdjudicationResponse.paid _ _ _ _ _ => true
  | _ => false

/-- Concrete warfarin billing claim fixture (the DUR interaction scenario of
the examples). -/
def warfarinClaim : PharmacyClaim :=
  { claim_id := "CLM002", transaction_code := TransactionCode.billing,
    service_date := 20251001, pharmacy_npi := "9876543210",
    prescriber_npi := "1234567890", prescription_number := "RX123457",
    fill_number := 1, ndc := "00056017270", gpi := some "83300010000330",
    quantity_dispensed := 30, days_supply := 30, daw_code := 0,
    ingredient_cost_submitted := 1800, dispensing_fee_submitted := 200,
    patient_paid_submitted := 0, usual_customary_charge := 2500,
    gross_amount_due := 2000, prior_auth := none,
    step_therapy_satisfied := true }

/-- Concrete DUR context fixture with ibuprofen on the current medication
list (the NSAID and anticoagulant interaction scenario). -/
def ibuprofenCtx : DURContext :=
  { current_medications :=
      [{ ndc := "00904515260", gpi := "66100010000310",
         name := "Ibuprofen 200mg" }],
    patient_age := 65, days_supply_remaining := 0 }

/-- Concrete tier-5 coinsurance Ozempic claim fixture carrying a prior
authorization and satisfied step therapy. -/
def ozempicClaim : PharmacyClaim :=
  { claim_id := "CLM003", transaction_code := TransactionCode.billing,
    service_date := 20251001, pharmacy_npi := "9876543210",
    prescriber_npi := "1234567890", prescription_number := "RX123458",
    fill_number := 1, ndc := "00169413512", gpi := some "27170040100320",
    quantity_dispensed := 4, days_supply := 28, daw_code := 0,
    ingredient_cost_submitted := 85000, dispensing_fee_submitted := 200,
    patient_paid_submitted := 0, usual_customary_charge := 90000,
    gross_amount_due := 85200, prior_auth := some "PA0001",
    step_therapy_satisfied := true }

/-- Concrete Humira claim fixture whose quantity exceeds the formulary
limit of 2. -/
def humiraClaim : PharmacyClaim :=
  { claim_id := "CLM005", transaction_code := TransactionCode.billing,
    service_date := 20251001, pharmacy_npi := "9876543210",
    prescriber_npi := "1234567890", prescription_number := "RX123459",
    fill_number := 1, ndc := "00074433902", gpi := some "52500030000320",
    quantity_dispensed := 3, days_supply := 28, daw_code := 0,
    ingredient_cost_submitted := 640000, dispensing_fee_submitted := 200,
    patient_paid_submitted := 0, usual_customary_charge := 700000,
    gross_amount_due := 640200, prior_auth := some "PA0002",
    step_therapy_satisfied := true }

/-- Concrete engine state fixture for a member who has already met the
out-of-pocket limit. -/
def maxedState : EngineState :=
  { member := { testMember with oop_met := 500000 },
    paid_claims := [], ledger := [] }

/-! ## Helper lemmas -/

theorem dedPortion_le_room (e : FormularyEntry) (m : Member) (a : Nat) :
    dedPortion e m a ≤ m.deductible_limit - m.deductible_met := by
  unfold dedPortion
  split
  · exact min_le_right _ _
  · exact Nat.zero_le _

theorem dedPortion_le_allowed (e : FormularyEntry) (m : Member) (a : Nat) :
    dedPortion e m a ≤ a := by
  unfold dedPortion
  split
  · exact min_le_left _ _
  · exact Nat.zero_le _

theorem costSharePart_le_of_wf (e : FormularyEntry) (h : WFEntry e)
    (x : Nat) : costSharePart e.cost_share x ≤ x := by
  unfold WFEntry at h
  unfold costSharePart
  cases hcs : e.cost_share with
  | copay c => exact min_le_right _ _
  | coinsurance r =>
      rw [hcs] at h
      calc x * r / 100 ≤ x * 100 / 100 :=
            Nat.div_le_div_right (Nat.mul_le_mul le_rfl h)
        _ = x := Nat.mul_div_cancel x (by norm_num)

theorem patientResponsibility_le_allowed (e : FormularyEntry) (m : Member)
    (a : Nat) (h : WFEntry e) : patientResponsibility e m a ≤ a := by
  have hd := dedPortion_le_allowed e m a
  have hcs := costSharePart_le_of_wf e h (a - dedPortion e m a)
  show dedPortion e m a + costSharePart e.cost_share (a - dedPortion e m a) ≤ a
  omega

theorem patientPay_le_allowed (e : FormularyEntry) (m : Member) (a : Nat)
    (h : WFEntry e) : patientPay e m a ≤ a :=
  le_trans (min_le_left _ _) (patientResponsibility_le_allowed e m a h)

theorem patientPay_le_room (e : FormularyEntry) (m : Member) (a : Nat) :
    patientPay e m a ≤ m.oop_limit - m.oop_met :=
  min_le_right _ _

theorem check_coverage_covered_mem (f : Formulary) (id : String)
    (e : FormularyEntry)
    (h : check_coverage f id = CoverageStatus.covered e) :
    ∃ p ∈ f.entries, p.2 = e := by
  unfold check_coverage at h
  split at h
  · rename_i p hp
    split at h
    · injection h with h2
      exact ⟨p, List.mem_of_find?_eq_some hp, h2⟩
    · simp at h
  · simp at h

/-- Characterization of the paid path of adjudicate: when the claim is not a
duplicate, the drug is covered, the UM checks pass and the DUR screen
passes, the engine pays exactly the priced amounts and finalizes. -/
theorem adjudicate_paid_eq (cfg : EngineConfig) (st : EngineState)
    (claim : PharmacyClaim) (ctx : DURContext) (entry : FormularyEntry)
    (hdup : ¬(claim.transaction_code = TransactionCode.billing ∧
              claim.claim_id ∈ st.paid_claims))
    (hcov : check_coverage cfg.formulary claim.ndc =
      CoverageStatus.covered entry)
    (hum : umCheck entry claim = UMResult.pass)
    (hdur : (screen cfg.rules (claim.gpi.getD "") ctx st.member.gender
              claim.quantity_dispensed claim.days_supply).passed = true) :
    adjudicate cfg st claim ctx =
      (AdjudicationResponse.paid (authNumberFor claim)
         (allowedAmount entry claim -
           patientPay entry st.member (allowedAmount entry claim))
         (patientPay entry st.member (allowedAmount entry claim))
         (costSharePart entry.cost_share
           (allowedAmount entry claim -
             dedPortion entry st.member (allowedAmount entry claim)))
         (screen cfg.rules (claim.gpi.getD "") ctx st.member.gender
           claim.quantity_dispensed claim.days_supply).alerts,
       { member := { st.member with
           deductible_met := st.member.deductible_met +
             min (dedPortion entry st.member (allowedAmount entry claim))
               (patientPay entry st.member (allowedAmount entry claim)),
           oop_met := st.member.oop_met +
             patientPay entry st.member (allowedAmount entry claim) },
         paid_claims := claim.claim_id :: st.paid_claims,
         ledger := { claim_id := claim.claim_id,
                     ded_applied :=
                       min (dedPortion entry st.member
                              (allowedAmount entry claim))
                         (patientPay entry st.member
                           (allowedAmount entry claim)),
                     oop_applied :=
                       patientPay entry st.member
                         (allowedAmount entry claim) } :: st.ledger }) := by
  unfold adjudicate
  rw [if_neg hdup, hcov]
  simp [hum, hdur]

/-- Characterization of the duplicate path: a billing resubmission of a
previously paid claim id short-circuits to duplicate before step 1. -/
theorem adjudicate_duplicate_eq (cfg : EngineConfig) (st : EngineState)
    (claim : PharmacyClaim) (ctx : DURContext)
    (hdup : claim.transaction_code = TransactionCode.billing ∧
      claim.claim_id ∈ st.paid_claims) :
    adjudicate cfg st claim ctx = (AdjudicationResponse.duplicate, st) := by
  unfold adjudicate
  rw [if_pos hdup]

/-- Characterization of the not-covered path: coverage check failure rejects
with code 70 and does not touch the state. -/
theorem adjudicate_notCovered_eq (cfg : EngineConfig) (st : EngineState)
    (claim : PharmacyClaim) (ctx : DURContext) (msg : String)
    (hdup : ¬(claim.transaction_code = TransactionCode.billing ∧
              claim.claim_id ∈ st.paid_claims))
    (hcov : check_coverage cfg.formulary claim.ndc =
      CoverageStatus.notCovered msg) :
    adjudicate cfg st claim ctx =
      (AdjudicationResponse.rejected 70 msg, st) := by
  unfold adjudicate
  rw [if_neg hdup, hcov]

/-- Characterization of the UM rejection path: a failing UM check rejects
with its code and does not touch the state. -/
theorem adjudicate_um_reject_eq (cfg : EngineConfig) (st : EngineState)
    (claim : PharmacyClaim) (ctx : DURContext) (entry : FormularyEntry)
    (code : Nat) (msg : String)
    (hdup : ¬(claim.transaction_code = TransactionCode.billing ∧
              claim.claim_id ∈ st.paid_claims))
    (hcov : check_coverage cfg.formulary claim.ndc =
      CoverageStatus.covered entry)
    (hum : umCheck entry claim = UMResult.reject code msg) :
    adjudicate cfg st claim ctx =
      (AdjudicationResponse.rejected code msg, st) := by
  unfold adjudicate
  rw [if_neg hdup, hcov]
  simp [hum]

/-- Characterization of the DUR rejection path: a failed screen rejects with
code 88 and does not touch the state. -/
theorem adjudicate_dur_reject_eq (cfg : EngineConfig) (st : EngineState)
    (claim : PharmacyClaim) (ctx : DURContext) (entry : FormularyEntry)
    (hdup : ¬(claim.transaction_code = TransactionCode.billing ∧
              claim.claim_id ∈ st.paid_claims))
    (hcov : check_coverage cfg.formulary claim.ndc =
      CoverageStatus.covered entry)
    (hum : umCheck entry claim = UMResult.pass)
    (hdur : (screen cfg.rules (claim.gpi.getD "") ctx st.member.gender
              claim.quantity_dispensed claim.days_supply).passed = false) :
    adjudicate cfg st claim ctx =
      (AdjudicationResponse.rejected 88 "DUR Reject", st) := by
  unfold adjudicate
  rw [if_neg hdup, hcov]
  simp [hum, hdur]

/-- Every adjudication lands in exactly one of the three response shapes:
duplicate and rejection leave the state unchanged, and payment goes through
the priced and finalized form of the paid path. -/
theorem adjudicate_cases (cfg : EngineConfig) (st : EngineState)
    (claim : PharmacyClaim) (ctx : DURContext) :
    adjudicate cfg st claim ctx = (AdjudicationResponse.duplicate, st) ∨
    (∃ code msg, adjudicate cfg st claim ctx =
      (AdjudicationResponse.rejected code msg, st)) ∨
    (∃ entry, check_coverage cfg.formulary claim.ndc =
        CoverageStatus.covered entry ∧
      umCheck entry claim = UMResult.pass ∧
      (screen cfg.rules (claim.gpi.getD "") ctx st.member.gender
        claim.quantity_dispensed claim.days_supply).passed = true ∧
      ¬(claim.transaction_code = TransactionCode.billing ∧
        claim.claim_id ∈ st.paid_claims)) := by
  by_cases hdup : claim.transaction_code = TransactionCode.billing ∧
      claim.claim_id ∈ st.paid_claims
  · exact Or.inl (adjudicate_duplicate_eq cfg st claim ctx hdup)
  · cases hcc : check_coverage cfg.formulary claim.ndc with
    | notCovered msg =>
        exact Or.inr (Or.inl
          ⟨70, msg, adjudicate_notCovered_eq cfg st claim ctx msg hdup hcc⟩)
    | covered entry =>
        cases hum : umCheck entry claim with
        | reject code msg =>
            exact Or.inr (Or.inl ⟨code, msg,
              adjudicate_um_reject_eq cfg st claim ctx entry code msg hdup
                hcc hum⟩)
        | pass =>
            cases hdur : (screen cfg.rules (claim.gpi.getD "") ctx
                st.member.gender claim.quantity_dispensed
                claim.days_supply).passed with
            | false =>
                exact Or.inr (Or.inl ⟨88, "DUR Reject",
                  adjudicate_dur_reject_eq cfg st claim ctx entry hdup hcc
                    hum hdur⟩)
            | true =>
                exact Or.inr (Or.inr ⟨entry, rfl, hum, rfl, hdup⟩)

/-- Claim C1: for every claim adjudicated to a paid response, the plan-paid
amount plus the patient-pay amount equals the adjudicated allowed amount
exactly (no rounding drift: amounts are in cents, the smallest currency
unit, and the sum is exact equality). -/
theorem C1_paid_conservation (cfg : EngineConfig) (st : EngineState)
    (claim : PharmacyClaim) (ctx : DURContext) (a : String)
    (p q cp : Nat) (al : List DURAlert) (st' : EngineState)
    (hwf : WFFormulary cfg.formulary)
    (h : adjudicate cfg st claim ctx =
      (AdjudicationResponse.paid a p q cp al, st')) :
    ∃ entry, check_coverage cfg.formulary claim.ndc =
        CoverageStatus.covered entry ∧
      p + q = allowedAmount entry claim := by
  rcases adjudicate_cases cfg st claim ctx with hd | ⟨c, m, hr⟩ |
    ⟨entry, hcc, hum, hdur, hdup⟩
  · rw [h] at hd
    simp at hd
  · rw [h] at hr
    simp at hr
  · have hp := adjudicate_paid_eq cfg st claim ctx entry hdup hcc hum hdur
    rw [h] at hp
    have hent : WFEntry entry := by
      obtain ⟨pr, hmem, hpe⟩ := check_coverage_covered_mem _ _ _ hcc
      have hw := hwf pr hmem
      rwa [hpe] at hw
    have hle := patientPay_le_allowed entry st.member
      (allowedAmount entry claim) hent
    refine ⟨entry, hcc, ?_⟩
    have hpq : p = allowedAmount entry claim -
        patientPay entry st.member (allowedAmount entry claim) ∧
        q = patientPay entry st.member (allowedAmount entry claim) := by
      have h1 := congrArg Prod.fst hp
      simp only [AdjudicationResponse.paid.injEq] at h1
      exact ⟨h1.2.1, h1.2.2.1⟩
    omega

/-- Witness for C1: the metformin example claim is paid with plan-paid 0
and patient-pay 1000 cents, summing to the allowed amount. -/
theorem C1_paid_conservation_witness :
    WFFormulary stdConfig.formulary ∧
    ∃ entry, check_coverage stdConfig.formulary metforminClaim.ndc =
        CoverageStatus.covered entry ∧
      0 + 1000 = allowedAmount entry metforminClaim :=
  ⟨by decide,
   C1_paid_conservation stdConfig testState metforminClaim testCtx
     "AUTHCLM001" 0 1000 1000 []
     { member := { testMember with oop_met := 1000 },
       paid_claims := ["CLM001"],
       ledger := [{ claim_id := "CLM001", ded_applied := 0,
                    oop_applied := 1000 }] }
     (by decide) (by decide)⟩




/-- One adjudication step preserves the accumulator invariant and never
decreases either accumulator. -/
theorem adjudicate_member_step (cfg : EngineConfig) (st : EngineState)
    (claim : PharmacyClaim) (ctx : DURContext) (h : AccInv st.member) :
    AccInv ((adjudicate cfg st claim ctx).2).member ∧
    st.member.deductible_met ≤
      ((adjudicate cfg st claim ctx).2).member.deductible_met ∧
    st.member.oop_met ≤ ((adjudicate cfg st claim ctx).2).member.oop_met := by
  rcases adjudicate_cases cfg st claim ctx with hd | ⟨c, m, hr⟩ |
    ⟨entry, hcc, hum, hdur, hdup⟩
  · rw [hd]
    exact ⟨h, le_rfl, le_rfl⟩
  · rw [hr]
    exact ⟨h, le_rfl, le_rfl⟩
  · rw [adjudicate_paid_eq cfg st claim ctx entry hdup hcc hum hdur]
    have h1 := dedPortion_le_room entry st.member (allowedAmount entry claim)
    have h2 := patientPay_le_room entry st.member (allowedAmount entry claim)
    have h3 : min (dedPortion entry st.member (allowedAmount entry claim))
        (patientPay entry st.member (allowedAmount entry claim)) ≤
        dedPortion entry st.member (allowedAmount entry claim) :=
      min_le_left _ _
    unfold AccInv at h ⊢
    dsimp
    omega

/-- Claim C2: after any sequence of adjudicated claims starting from a
member whose accumulators satisfy met below limit, both accumulators remain
between zero (inherent in Nat) and their limits, and neither decreases
across the sequence (the billing path contains no reversal; reversal is the
separate ledger operation). -/
theorem C2_accumulator_invariant (cfg : EngineConfig) (ctx : DURContext)
    (claims : List PharmacyClaim) (st : EngineState)
    (h : AccInv st.member) :
    AccInv (adjudicateAll cfg ctx st claims).member ∧
    st.member.deductible_met ≤
      (adjudicateAll cfg ctx st claims).member.deductible_met ∧
    st.member.oop_met ≤ (adjudicateAll cfg ctx st claims).member.oop_met := by
  induction claims generalizing st with
  | nil => exact ⟨h, le_rfl, le_rfl⟩
  | cons c cs ih =>
      have hstep := adjudicate_member_step cfg st c ctx h
      have hrest := ih ((adjudicate cfg st c ctx).2) hstep.1
      unfold adjudicateAll at hrest ⊢
      simp only [List.foldl_cons]
      exact ⟨hrest.1, le_trans hstep.2.1 hrest.2.1,
        le_trans hstep.2.2 hrest.2.2⟩

/-- Witness for C2: processing the metformin then warfarin claims keeps the
accumulators within limits and non-decreasing. -/
theorem C2_accumulator_invariant_witness :
    AccInv testState.member ∧
    (AccInv (adjudicateAll stdConfig testCtx testState
        [metforminClaim, warfarinClaim]).member ∧
     testState.member.deductible_met ≤
       (adjudicateAll stdConfig testCtx testState
         [metforminClaim, warfarinClaim]).member.deductible_met ∧
     testState.member.oop_met ≤
       (adjudicateAll stdConfig testCtx testState
         [metforminClaim, warfarinClaim]).member.oop_met) :=
  ⟨by decide,
   C2_accumulator_invariant stdConfig testCtx
     [metforminClaim, warfarinClaim] testState (by decide)⟩

/-- Ordering the alerts by severity keeps exactly the same alerts. -/
theorem mem_orderAlerts (a : DURAlert) (l : List DURAlert) :
    a ∈ orderAlerts l ↔ a ∈ l := by
  unfold orderAlerts
  simp only [List.mem_append, List.mem_filter, Bool.and_eq_true,
    bne_iff_ne, beq_iff_eq, ne_eq]
  constructor
  · rintro ((⟨h, _⟩ | ⟨h, _⟩) | ⟨h, _⟩) <;> exact h
  · intro h
    rcases eq_or_ne a.severity 1 with h1 | h1
    · exact Or.inl (Or.inl ⟨h, h1⟩)
    · rcases eq_or_ne a.severity 2 with h2 | h2
      · exact Or.inl (Or.inr ⟨h, h2⟩)
      · exact Or.inr ⟨h, h1, h2⟩

/-- The DUR screen passes exactly when no returned alert has severity 1. -/
theorem screen_passed_iff (rules : DURRules) (gpi : String)
    (ctx : DURContext) (gender : Gender) (quantity days_supply : Nat) :
    (screen rules gpi ctx gender quantity days_supply).passed = true ↔
      ∀ a ∈ (screen rules gpi ctx gender quantity days_supply).alerts,
        a.severity ≠ 1 := by
  unfold screen
  simp only [Bool.not_eq_true', List.any_eq_false, beq_iff_eq]
  constructor
  · intro hp a ha
    exact hp a ((mem_orderAlerts a _).mp ha)
  · intro hp a ha
    exact hp a ((mem_orderAlerts a _).mpr ha)

/-- Claim C3: for a covered claim passing UM checks, a severity-1 DUR alert
forces rejection with code 88 (and passed is exactly the absence of a
severity-1 alert), while alerts of severity 2 or 3 alone never cause
rejection: the claim is paid. -/
theorem C3_dur_severity_gate (cfg : EngineConfig) (st : EngineState)
    (claim : PharmacyClaim) (ctx : DURContext) (entry : FormularyEntry)
    (hdup : ¬(claim.transaction_code = TransactionCode.billing ∧
              claim.claim_id ∈ st.paid_claims))
    (hcov : check_coverage cfg.formulary claim.ndc =
      CoverageStatus.covered entry)
    (hum : umCheck entry claim = UMResult.pass) :
    ((screen cfg.rules (claim.gpi.getD "") ctx st.member.gender
        claim.quantity_dispensed claim.days_supply).passed = true ↔
      ∀ a ∈ (screen cfg.rules (claim.gpi.getD "") ctx st.member.gender
          claim.quantity_dispensed claim.days_supply).alerts,
        a.severity ≠ 1) ∧
    ((∃ a ∈ (screen cfg.rules (claim.gpi.getD "") ctx st.member.gender
          claim.quantity_dispensed claim.days_supply).alerts,
        a.severity = 1) →
      adjudicate cfg st claim ctx =
        (AdjudicationResponse.rejected 88 "DUR Reject", st)) ∧
    ((∀ a ∈ (screen cfg.rules (claim.gpi.getD "") ctx st.member.gender
          claim.quantity_dispensed claim.days_supply).alerts,
        a.severity ≠ 1) →
      isPaid (adjudicate cfg st claim ctx).1 = true) := by
  refine ⟨screen_passed_iff _ _ _ _ _ _, ?_, ?_⟩
  · rintro ⟨a, ha, h1⟩
    have hfail : (screen cfg.rules (claim.gpi.getD "") ctx st.member.gender
        claim.quantity_dispensed claim.days_supply).passed = false := by
      rcases hpv : (screen cfg.rules (claim.gpi.getD "") ctx
          st.member.gender claim.quantity_dispensed
          claim.days_supply).passed with _ | _
      · rfl
      · exact absurd h1 ((screen_passed_iff _ _ _ _ _ _).mp hpv a ha)
    exact adjudicate_dur_reject_eq cfg st claim ctx entry hdup hcov hum hfail
  · intro hno
    have hpass := (screen_passed_iff cfg.rules (claim.gpi.getD "") ctx
      st.member.gender claim.quantity_dispensed claim.days_supply).mpr hno
    rw [adjudicate_paid_eq cfg st claim ctx entry hdup hcov hum hpass]
    rfl

/-- Witness for C3 at the warfarin-with-ibuprofen scenario: the screen
reports a contraindicated (severity 1) interaction and the claim is
rejected with code 88. -/
theorem C3_dur_severity_gate_witness :
    (¬(warfarinClaim.transaction_code = TransactionCode.billing ∧
       warfarinClaim.claim_id ∈ testState.paid_claims)) ∧
    (∃ a ∈ (screen stdConfig.rules (warfarinClaim.gpi.getD "") ibuprofenCtx
        testState.member.gender warfarinClaim.quantity_dispensed
        warfarinClaim.days_supply).alerts, a.severity = 1) ∧
    adjudicate stdConfig testState warfarinClaim ibuprofenCtx =
      (AdjudicationResponse.rejected 88 "DUR Reject", testState) := by
  have h := C3_dur_severity_gate stdConfig testState warfarinClaim
    ibuprofenCtx
    { covered := true, tier := 2, cost_share := CostShare.copay 2500,
      requires_pa := false, step_therapy := false, quantity_limit := none,
      deductible_eligible := true, negotiated_rate := 2000 }
    (by decide) (by decide) (by decide)
  refine ⟨by decide, ⟨?_, ?_⟩⟩
  · decide
  · exact h.2.1 (by decide)

/-- Claim C4: for every engine state that is not a duplicate resubmission,
member and claim, a claim whose drug identifier is absent from (or not
covered by) the formulary is rejected with code 70, regardless of any other
member or claim field, and the state is untouched. -/
theorem C4_not_covered_rejects_70 (cfg : EngineConfig) (st : EngineState)
    (claim : PharmacyClaim) (ctx : DURContext) (msg : String)
    (hdup : ¬(claim.transaction_code = TransactionCode.billing ∧
              claim.claim_id ∈ st.paid_claims))
    (hcov : check_coverage cfg.formulary claim.ndc =
      CoverageStatus.notCovered msg) :
    adjudicate cfg st claim ctx =
      (AdjudicationResponse.rejected 70 msg, st) :=
  adjudicate_notCovered_eq cfg st claim ctx msg hdup hcov

/-- Witness for C4: the unknown drug 99999999999 is rejected with code
70. -/
theorem C4_not_covered_rejects_70_witness :
    check_coverage stdConfig.formulary "99999999999" =
      CoverageStatus.notCovered "Product/Service Not Covered" ∧
    adjudicate stdConfig testState
      { metforminClaim with ndc := "99999999999", claim_id := "CLM009" }
      testCtx =
      (AdjudicationResponse.rejected 70 "Product/Service Not Covered",
       testState) :=
  ⟨by decide,
   C4_not_covered_rejects_70 stdConfig testState
     { metforminClaim with ndc := "99999999999", claim_id := "CLM009" }
     testCtx "Product/Service Not Covered" (by decide) (by decide)⟩

/-- Claim C5: check_coverage is a total function over any drug identifier:
for every formulary and every identifier, including unknown or malformed
ones, it returns either the covered entry found in the table or the defined
not-covered default with its message; being a Lean function it is pure and
idempotent by construction, and it never fails. -/
theorem C5_coverage_total (f : Formulary) (drug_id : String) :
    (∃ p, f.entries.find? (fun q => q.1 == drug_id) = some p ∧
       p.2.covered = true ∧
       check_coverage f drug_id = CoverageStatus.covered p.2) ∨
    check_coverage f drug_id =
      CoverageStatus.notCovered "Product/Service Not Covered" := by
  unfold check_coverage
  cases hf : f.entries.find? (fun q => q.1 == drug_id) with
  | none => exact Or.inr rfl
  | some p =>
      by_cases hc : p.2.covered = true
      · exact Or.inl ⟨p, rfl, hc, by simp [hc]⟩
      · exact Or.inr (by simp [hc])

/-- Claim C6: when a member has already met the out-of-pocket limit before
the claim, any claim that reaches payment is paid with patient_pay zero
(the plan pays the whole allowed amount), for any covered drug including a
tier-5 coinsurance drug. -/
theorem C6_oop_met_zero_patient_pay (cfg : EngineConfig) (st : EngineState)
    (claim : PharmacyClaim) (ctx : DURContext) (entry : FormularyEntry)
    (hdup : ¬(claim.transaction_code = TransactionCode.billing ∧
              claim.claim_id ∈ st.paid_claims))
    (hcov : check_coverage cfg.formulary claim.ndc =
      CoverageStatus.covered entry)
    (hum : umCheck entry claim = UMResult.pass)
    (hdur : (screen cfg.rules (claim.gpi.getD "") ctx st.member.gender
              claim.quantity_dispensed claim.days_supply).passed = true)
    (hoop : st.member.oop_met = st.member.oop_limit) :
    ∃ auth plan cp al st2, adjudicate cfg st claim ctx =
      (AdjudicationResponse.paid auth plan 0 cp al, st2) := by
  have hp := adjudicate_paid_eq cfg st claim ctx entry hdup hcov hum hdur
  have h0 : patientPay entry st.member (allowedAmount entry claim) = 0 := by
    unfold patientPay
    rw [hoop, Nat.sub_self]
    simp
  rw [h0] at hp
  exact ⟨_, _, _, _, _, hp⟩

/-- Witness for C6: a tier-5 coinsurance Ozempic claim for a member whose
oop_met equals oop_limit is paid with patient_pay zero. -/
theorem C6_oop_met_zero_patient_pay_witness :
    maxedState.member.oop_met = maxedState.member.oop_limit ∧
    ∃ auth plan cp al st2,
      adjudicate stdConfig maxedState ozempicClaim testCtx =
        (AdjudicationResponse.paid auth plan 0 cp al, st2) :=
  ⟨by decide,
   C6_oop_met_zero_patient_pay stdConfig maxedState ozempicClaim testCtx
     { covered := true, tier := 5, cost_share := CostShare.coinsurance 25,
       requires_pa := true, step_therapy := true, quantity_limit := some 4,
       deductible_eligible := true, negotiated_rate := 85000 }
     (by decide) (by decide) (by decide) (by decide) (by decide)⟩

/-- Claim C7: for a covered drug the UM checks run in the fixed order prior
authorization, step therapy, quantity limit, halting on the first failure:
a PA-required drug with no authorization on the claim is rejected with code
75 regardless of the later checks, and when PA and step therapy pass, a
quantity above the formulary limit is rejected with code 76. -/
theorem C7_um_fixed_order (cfg : EngineConfig) (st : EngineState)
    (claim : PharmacyClaim) (ctx : DURContext) (entry : FormularyEntry)
    (q : Nat)
    (hdup : ¬(claim.transaction_code = TransactionCode.billing ∧
              claim.claim_id ∈ st.paid_claims))
    (hcov : check_coverage cfg.formulary claim.ndc =
      CoverageStatus.covered entry) :
    ((entry.requires_pa = true ∧ claim.prior_auth = none) →
      adjudicate cfg st claim ctx =
        (AdjudicationResponse.rejected 75 "Prior Authorization Required",
         st)) ∧
    (¬(entry.requires_pa = true ∧ claim.prior_auth = none) →
     ¬(entry.step_therapy = true ∧ claim.step_therapy_satisfied = false) →
     entry.quantity_limit = some q → q < claim.quantity_dispensed →
      adjudicate cfg st claim ctx =
        (AdjudicationResponse.rejected 76 "Plan Limitations Exceeded",
         st)) := by
  constructor
  · rintro ⟨hpa, hnone⟩
    have hum : umCheck entry claim =
        UMResult.reject 75 "Prior Authorization Required" := by
      unfold umCheck
      rw [hpa, hnone]
      rfl
    exact adjudicate_um_reject_eq cfg st claim ctx entry 75
      "Prior Authorization Required" hdup hcov hum
  · intro hpa2 hst hql hqty
    have c1 : (entry.requires_pa && claim.prior_auth.isNone) = false := by
      cases hrp : entry.requires_pa with
      | false => rfl
      | true =>
          cases hpn : claim.prior_auth with
          | none => exact absurd ⟨hrp, hpn⟩ hpa2
          | some v => rfl
    have c2 : (entry.step_therapy && !claim.step_therapy_satisfied) =
        false := by
      cases hsp : entry.step_therapy with
      | false => rfl
      | true =>
          cases hss : claim.step_therapy_satisfied with
          | false => exact absurd ⟨hsp, hss⟩ hst
          | true => rfl
    have hum : umCheck entry claim =
        UMResult.reject 76 "Plan Limitations Exceeded" := by
      unfold umCheck
      rw [c1, c2]
      simp [hql, hqty]
    exact adjudicate_um_reject_eq cfg st claim ctx entry 76
      "Plan Limitations Exceeded" hdup hcov hum

/-- Witness for C7: an Ozempic claim stripped of its prior authorization is
rejected with code 75, and a Humira claim for quantity 3 against a limit of
2 is rejected with code 76. -/
theorem C7_um_fixed_order_witness :
    adjudicate stdConfig testState
      { ozempicClaim with prior_auth := none, claim_id := "CLM004" }
      testCtx =
      (AdjudicationResponse.rejected 75 "Prior Authorization Required",
       testState) ∧
    adjudicate stdConfig testState humiraClaim testCtx =
      (AdjudicationResponse.rejected 76 "Plan Limitations Exceeded",
       testState) :=
  ⟨(C7_um_fixed_order stdConfig testState
      { ozempicClaim with prior_auth := none, claim_id := "CLM004" }
      testCtx
      { covered := true, tier := 5, cost_share := CostShare.coinsurance 25,
        requires_pa := true, step_therapy := true, quantity_limit := some 4,
        deductible_eligible := true, negotiated_rate := 85000 }
      4 (by decide) (by decide)).1 (by decide),
   (C7_um_fixed_order stdConfig testState humiraClaim testCtx
      { covered := true, tier := 5, cost_share := CostShare.coinsurance 25,
        requires_pa := true, step_therapy := false, quantity_limit := some 2,
        deductible_eligible := true, negotiated_rate := 650000 }
      2 (by decide) (by decide)).2 (by decide) (by decide) (by decide)
      (by decide)⟩

/-- Claim C8: reversing a paid claim restores the engine state exactly
(accumulators, paid-claim marks, ledger records), so re-adjudicating an
identical claim yields the same response as the original first
adjudication. -/
theorem C8_reversal_roundtrip (cfg : EngineConfig) (st : EngineState)
    (claim : PharmacyClaim) (ctx : DURContext) (entry : FormularyEntry)
    (hfresh : claim.claim_id ∉ st.paid_claims)
    (hled : ∀ r ∈ st.ledger, r.claim_id ≠ claim.claim_id)
    (hcov : check_coverage cfg.formulary claim.ndc =
      CoverageStatus.covered entry)
    (hum : umCheck entry claim = UMResult.pass)
    (hdur : (screen cfg.rules (claim.gpi.getD "") ctx st.member.gender
              claim.quantity_dispensed claim.days_supply).passed = true) :
    ∃ resp st1, adjudicate cfg st claim ctx = (resp, st1) ∧
      isPaid resp = true ∧
      ∃ st2, reverseClaim st1 claim.claim_id = some st2 ∧
        adjudicate cfg st2 claim ctx = (resp, st1) := by
  have hdup : ¬(claim.transaction_code = TransactionCode.billing ∧
      claim.claim_id ∈ st.paid_claims) := fun hc => hfresh hc.2
  have hp := adjudicate_paid_eq cfg st claim ctx entry hdup hcov hum hdur
  refine ⟨_, _, hp, rfl, st, ?_, hp⟩
  unfold reverseClaim
  rw [List.find?_cons_of_pos _ (by simp)]
  obtain ⟨mem, pc, lg⟩ := st
  simp only [Option.some.injEq, EngineState.mk.injEq]
  refine ⟨?_, ?_, ?_⟩
  · obtain ⟨a1, a2, a3, a4, a5, a6, a7, a8, a9, a10, d1, d2, o1, o2⟩ := mem
    simp
  · rw [List.filter_cons_of_neg (by simp)]
    exact List.filter_eq_self.mpr fun c hc =>
      bne_iff_ne.mpr fun he => hfresh (he ▸ hc)
  · rw [List.filter_cons_of_neg (by simp)]
    exact List.filter_eq_self.mpr fun r hr =>
      bne_iff_ne.mpr (hled r hr)

/-- Witness for C8: the metformin claim is paid, its reversal restores the
fresh state, and resubmission adjudicates identically. -/
theorem C8_reversal_roundtrip_witness :
    ∃ resp st1,
      adjudicate stdConfig testState metforminClaim testCtx = (resp, st1) ∧
      isPaid resp = true ∧
      ∃ st2, reverseClaim st1 metforminClaim.claim_id = some st2 ∧
        adjudicate stdConfig st2 metforminClaim testCtx = (resp, st1) :=
  C8_reversal_roundtrip stdConfig testState metforminClaim testCtx
    { covered := true, tier := 1, cost_share := CostShare.copay 1000,
      requires_pa := false, step_therapy := false, quantity_limit := none,
      deductible_eligible := false, negotiated_rate := 1200 }
    (by decide) (by decide) (by decide) (by decide) (by decide)

/-- Claim C9: adjudicate mutates the member accumulators only in the
finalize step of a paid claim: a rejected or duplicate outcome leaves the
whole engine state unchanged, and a paid outcome changes the member only by
adding to deductible_met and oop_met (every other member field is kept). -/
theorem C9_accumulator_frame (cfg : EngineConfig) (st : EngineState)
    (claim : PharmacyClaim) (ctx : DURContext)
    (resp : AdjudicationResponse) (st' : EngineState)
    (h : adjudicate cfg st claim ctx = (resp, st')) :
    (isPaid resp = false → st' = st) ∧
    (isPaid resp = true → ∃ d o,
      st'.member = { st.member with
        deductible_met := st.member.deductible_met + d,
        oop_met := st.member.oop_met + o }) := by
  rcases adjudicate_cases cfg st claim ctx with hd | ⟨c, m, hr⟩ |
    ⟨entry, hcc, hum, hdur, hdup⟩
  · rw [h] at hd
    injection hd with h1 h2
    subst h1
    subst h2
    exact ⟨fun _ => rfl, fun hh => Bool.noConfusion hh⟩
  · rw [h] at hr
    injection hr with h1 h2
    subst h1
    subst h2
    exact ⟨fun _ => rfl, fun hh => Bool.noConfusion hh⟩
  · have hp := adjudicate_paid_eq cfg st claim ctx entry hdup hcc hum hdur
    rw [h] at hp
    injection hp with h1 h2
    subst h1
    subst h2
    exact ⟨fun hf => Bool.noConfusion hf, fun _ =>
      ⟨min (dedPortion entry st.member (allowedAmount entry claim))
         (patientPay entry st.member (allowedAmount entry claim)),
       patientPay entry st.member (allowedAmount entry claim), rfl⟩⟩

/-- Witness for C9: the metformin adjudication is paid and the resulting
member differs from the starting member only by the added accumulator
amounts. -/
theorem C9_accumulator_frame_witness :
    isPaid (AdjudicationResponse.paid "AUTHCLM001" 0 1000 1000 []) = true ∧
    ∃ d o,
      ({ member := { testMember with oop_met := 1000 },
         paid_claims := ["CLM001"],
         ledger := [{ claim_id := "CLM001", ded_applied := 0,
                      oop_applied := 1000 }] } : EngineState).member =
        { testState.member with
          deductible_met := testState.member.deductible_met + d,
          oop_met := testState.member.oop_met + o } :=
  ⟨by decide,
   (C9_accumulator_frame stdConfig testState metforminClaim testCtx
      (AdjudicationResponse.paid "AUTHCLM001" 0 1000 1000 [])
      { member := { testMember with oop_met := 1000 },
        paid_claims := ["CLM001"],
        ledger := [{ claim_id := "CLM001", ded_applied := 0,
                     oop_applied := 1000 }] }
      (by decide)).2 (by decide)⟩

/-- Claim C10: two RxMemberGenerator instances constructed with the same
seed produce identical members (and identical successor generator states)
for identical generate arguments: member generation is a deterministic
function of the seed and the arguments. -/
theorem C10_generator_determinism (seed1 seed2 : Nat)
    (bin pcn group_number : String) (h : seed1 = seed2) :
    (RxMemberGenerator.ofSeed seed1).generate bin pcn group_number =
      (RxMemberGenerator.ofSeed seed2).generate bin pcn group_number := by
  rw [h]

/-- Witness for C10 at seed 42 and the example arguments. -/
theorem C10_generator_determinism_witness :
    (42 : Nat) = 42 ∧
    (RxMemberGenerator.ofSeed 42).generate "610014" "RXTEST" "GRP001" =
      (RxMemberGenerator.ofSeed 42).generate "610014" "RXTEST" "GRP001" :=
  ⟨rfl, C10_generator_determinism 42 42 "610014" "RXTEST" "GRP001" rfl⟩
